import Mathlib

/-!
Verification of the voice-calendar-agent repository.

Part 1 embeds the frontend voice-session code
(src/frontend/src/stores/vapiStore.ts and the useVoiceSession hook) as pure
state-passing functions.  Part 2 models the backend tool-call webhook
correlation and dispatch engine described by the specification; the
repository ships only the backend's scaffolding (requirements, routers noted
as stubs), so those definitions are modelled from the spec and say so in
their doc comments.
-/

namespace VoiceCal

/-- A constructed VAPI web client, as produced by new Vapi(publicKey) in
src/frontend/src/stores/vapiStore.ts. -/
structure Vapi where
  publicKey : String
deriving DecidableEq, Repr

/-- The Zustand store state of useVapiStore (vapiStore.ts): a single vapi
field that starts as null. -/
structure VapiStore where
  vapi : Option Vapi
deriving DecidableEq, Repr

/-- The store's declared initial state: vapi: null (vapiStore.ts line 10). -/
def initialStore : VapiStore := { vapi := none }

/-- The browser environment the frontend code reads: the two Vite environment
values, and whether each VAPI SDK call resolves or throws. -/
structure FrontendEnv where
  vitePublicKey : Option String
  viteAssistantId : Option String
  sdkStartSucceeds : Bool
  sdkStopSucceeds : Bool
deriving DecidableEq, Repr

/-- What initializeVapi leaves behind: the store afterwards and whether
console.error was invoked. -/
structure InitResult where
  store : VapiStore
  errorLogged : Bool
deriving DecidableEq, Repr

/-- initializeVapi from vapiStore.ts: reads VITE_VAPI_PUBLIC_KEY; when it is
absent, logs an error and returns with the store untouched; otherwise
constructs a Vapi instance with that key and stores it. -/
def initializeVapi (env : FrontendEnv) (store : VapiStore) : InitResult :=
  match env.vitePublicKey with
  | none => { store := store, errorLogged := true }
  | some pk => { store := { vapi := some { publicKey := pk } }, errorLogged := false }

/-- The useVoiceSession hook's state: its two useState flags. -/
structure HookState where
  isConnected : Bool
  isRecording : Bool
deriving DecidableEq, Repr

/-- Both flags start false (useState(false) twice). -/
def initialHookState : HookState := { isConnected := false, isRecording := false }

/-- A call the hook makes into the VAPI SDK. -/
inductive SdkCall where
  | start (assistantId : String)
  | stop
deriving DecidableEq, Repr

/-- startRecording from the useVoiceSession hook: returns immediately when the
store's vapi is null; otherwise reads VITE_VAPI_ASSISTANT_ID (logging and
returning when absent), awaits vapi.start(assistantId), and on success sets
isRecording and isConnected; when vapi.start throws, the catch only logs and
neither flag is written.  Returns the hook state afterwards together with the
SDK calls issued. -/
def startRecording (env : FrontendEnv) (store : VapiStore) (s : HookState) :
    HookState × List SdkCall :=
  match store.vapi with
  | none => (s, [])
  | some _ =>
    match env.viteAssistantId with
    | none => (s, [])
    | some aid =>
      if env.sdkStartSucceeds then
        ({ isConnected := true, isRecording := true }, [SdkCall.start aid])
      else
        (s, [SdkCall.start aid])

/-- stopRecording from the useVoiceSession hook: returns immediately when the
store's vapi is null; otherwise calls vapi.stop() and clears isRecording
(when vapi.stop throws, the catch only logs and the state is unchanged).
isConnected is never written. -/
def stopRecording (env : FrontendEnv) (store : VapiStore) (s : HookState) :
    HookState × List SdkCall :=
  match store.vapi with
  | none => (s, [])
  | some _ =>
    if env.sdkStopSucceeds then
      ({ s with isRecording := false }, [SdkCall.stop])
    else
      (s, [SdkCall.stop])

/-- The two operations useVoiceSession returns to the component. -/
inductive VoiceOp where
  | startOp
  | stopOp
deriving DecidableEq, Repr

/-- One button press: dispatch to startRecording or stopRecording. -/
def runOp (store : VapiStore) (env : FrontendEnv) (op : VoiceOp) (s : HookState) :
    HookState × List SdkCall :=
  match op with
  | .startOp => startRecording env store s
  | .stopOp => stopRecording env store s

/-- A whole interaction: a sequence of operations, each under its own
environment (the SDK may succeed or throw differently each time). -/
def runOps (store : VapiStore) : List (FrontendEnv × VoiceOp) → HookState → HookState
  | [], s => s
  | (env, op) :: rest, s => runOps store rest (runOp store env op s).1

theorem stopRecording_connected_eq (env : FrontendEnv) (store : VapiStore)
    (s : HookState) : ((stopRecording env store s).1).isConnected = s.isConnected := by
  simp only [stopRecording]
  cases h : store.vapi
  · rfl
  · cases hs : env.sdkStopSucceeds
    · rfl
    · rfl

theorem runOp_connected_mono (store : VapiStore) (env : FrontendEnv)
    (op : VoiceOp) (s : HookState) (h : s.isConnected = true) :
    ((runOp store env op s).1).isConnected = true := by
  cases op
  · simp only [runOp, startRecording]
    cases hv : store.vapi
    · exact h
    · cases ha : env.viteAssistantId
      · exact h
      · cases hs : env.sdkStartSucceeds
        · exact h
        · rfl
  · simp only [runOp]
    rw [stopRecording_connected_eq]
    exact h

theorem runOps_connected_mono (store : VapiStore)
    (ops : List (FrontendEnv × VoiceOp)) (s : HookState)
    (h : s.isConnected = true) : (runOps store ops s).isConnected = true := by
  induction ops generalizing s with
  | nil => exact h
  | cons p rest ih =>
    obtain ⟨env, op⟩ := p
    exact ih _ (runOp_connected_mono store env op s h)

/-- C8: when the VAPI client instance in the store is null, startRecording and
stopRecording both return immediately: no SDK call is issued and the hook
state (isConnected, isRecording) is exactly what it was. -/
theorem null_vapi_client_noop (env : FrontendEnv) (store : VapiStore)
    (s : HookState) (h : store.vapi = none) :
    startRecording env store s = (s, []) ∧ stopRecording env store s = (s, []) := by
  constructor <;> simp [startRecording, stopRecording, h]

theorem null_vapi_client_noop_witness :
    startRecording ⟨some "pk", some "aid", true, true⟩ initialStore initialHookState
        = (initialHookState, []) ∧
      stopRecording ⟨some "pk", some "aid", true, true⟩ initialStore initialHookState
        = (initialHookState, []) :=
  null_vapi_client_noop ⟨some "pk", some "aid", true, true⟩ initialStore
    initialHookState rfl

/-- C9: once a startRecording call has set isConnected to true, no sequence of
later start/stop operations ever clears it, because stopRecording writes only
isRecording and leaves isConnected as it was. -/
theorem connected_never_cleared (store : VapiStore) (env₀ : FrontendEnv)
    (s₀ : HookState) (ops : List (FrontendEnv × VoiceOp))
    (hstart : ((startRecording env₀ store s₀).1).isConnected = true) :
    (runOps store ops (startRecording env₀ store s₀).1).isConnected = true ∧
      ∀ (env : FrontendEnv) (s : HookState),
        ((stopRecording env store s).1).isConnected = s.isConnected := by
  exact ⟨runOps_connected_mono store ops _ hstart,
    fun env s => stopRecording_connected_eq env store s⟩

theorem connected_never_cleared_witness :
    (runOps ⟨some (Vapi.mk "pk")⟩
        [(⟨some "pk", some "aid", true, true⟩, VoiceOp.stopOp),
         (⟨some "pk", some "aid", false, true⟩, VoiceOp.startOp)]
        (startRecording ⟨some "pk", some "aid", true, true⟩ ⟨some (Vapi.mk "pk")⟩
          initialHookState).1).isConnected = true ∧
      ∀ (env : FrontendEnv) (s : HookState),
        ((stopRecording env ⟨some (Vapi.mk "pk")⟩ s).1).isConnected = s.isConnected :=
  connected_never_cleared ⟨some (Vapi.mk "pk")⟩ ⟨some "pk", some "aid", true, true⟩
    initialHookState
    [(⟨some "pk", some "aid", true, true⟩, VoiceOp.stopOp),
     (⟨some "pk", some "aid", false, true⟩, VoiceOp.startOp)] rfl

/-- C10: when VITE_VAPI_PUBLIC_KEY is absent, initializeVapi logs an error and
returns without constructing a Vapi instance, so the store's vapi field stays
null; consequently every subsequent startRecording and stopRecording, under
any environment and from any hook state, is a no-op. -/
theorem missing_public_key_disables_voice (env : FrontendEnv)
    (h : env.vitePublicKey = none) :
    (initializeVapi env initialStore).errorLogged = true ∧
      (initializeVapi env initialStore).store.vapi = none ∧
      ∀ (env' : FrontendEnv) (s : HookState),
        startRecording env' (initializeVapi env initialStore).store s = (s, []) ∧
          stopRecording env' (initializeVapi env initialStore).store s = (s, []) := by
  have hinit : initializeVapi env initialStore
      = { store := initialStore, errorLogged := true } := by
    simp [initializeVapi, h]
  refine ⟨by rw [hinit], by rw [hinit]; rfl, fun env' s => ?_⟩
  rw [hinit]
  constructor <;> simp [startRecording, stopRecording, initialStore]

theorem missing_public_key_disables_voice_witness :
    (initializeVapi ⟨none, some "aid", true, true⟩ initialStore).errorLogged = true ∧
      (initializeVapi ⟨none, some "aid", true, true⟩ initialStore).store.vapi = none ∧
      ∀ (env' : FrontendEnv) (s : HookState),
        startRecording env' (initializeVapi ⟨none, some "aid", true, true⟩
            initialStore).store s = (s, []) ∧
          stopRecording env' (initializeVapi ⟨none, some "aid", true, true⟩
            initialStore).store s = (s, []) :=
  missing_public_key_disables_voice ⟨none, some "aid", true, true⟩ rfl

/-- Modelled from the spec: the status of a ToolCallOutcome (§3); the webhook
correlation and dispatch engine itself is not among the repository's files
(the backend ships only scaffolding). -/
inductive Status where
  | Succeeded
  | Failed
  | TimedOut
deriving DecidableEq, Repr

/-- Modelled from the spec: the error taxonomy of §7, with DownstreamFailure
subdivided into its retryable (rate-limited) and non-retryable (not-found,
conflict) classes. -/
inductive ErrorCode where
  | MalformedRequest
  | UnknownFunction
  | InvalidArguments
  | CredentialUnavailable
  | DownstreamRetryable
  | DownstreamNonRetryable
  | Timeout
deriving DecidableEq, Repr

/-- Modelled from the spec: a ToolCallRequest (§3): identifier, function name
and a structured key/value argument mapping. -/
structure ToolCallRequest where
  callId : String
  functionName : String
  args : List (String × String)
deriving DecidableEq, Repr

/-- Modelled from the spec: one calendar event of the calendar backend (§6);
times are minutes since an epoch, the day index is minutes / 1440. -/
structure CalEvent where
  eventId : String
  title : String
  startTime : Nat
  endTime : Nat
deriving DecidableEq, Repr

/-- Modelled from the spec: a ToolCallOutcome's payload (§3): on success a
natural-language result string plus optional structured data, on failure an
error code and message. -/
inductive OutcomePayload where
  | success (message : String) (events : List CalEvent)
  | failure (code : ErrorCode) (message : String)
deriving DecidableEq, Repr

/-- Modelled from the spec: a ToolCallOutcome (§3). -/
structure ToolCallOutcome where
  callId : String
  status : Status
  payload : OutcomePayload
deriving DecidableEq, Repr

/-- The error code a failed outcome carries, none for a success payload. -/
def ToolCallOutcome.errorCode : ToolCallOutcome → Option ErrorCode
  | { payload := .failure c _, .. } => some c
  | _ => none

/-- Modelled from the spec: a WebhookBatch (§3): the ordered tool calls of one
conversational turn plus the session identifier. -/
structure WebhookBatch where
  sessionId : String
  calls : List ToolCallRequest
deriving DecidableEq, Repr

/-- Modelled from the spec: a resolved calendar credential (§6). -/
structure Credential where
  accessToken : String
deriving DecidableEq, Repr

/-- Modelled from the spec: what getCredential(sessionId) can return (§6). -/
inductive CredLookup where
  | valid (c : Credential)
  | expired
  | notFound
deriving DecidableEq, Repr

/-- Modelled from the spec: what refresh(sessionId) can return (§6). -/
inductive RefreshResult where
  | refreshed (c : Credential)
  | refreshFailed
deriving DecidableEq, Repr

/-- Modelled from the spec: the session's conversational calendar context
(§3): the "today" reference date (a day index) and the calendar the session
resolves to. -/
structure SessionContext where
  refDate : Nat
  calendar : List CalEvent
deriving DecidableEq, Repr

/-- Modelled from the spec: the external collaborators the engine consumes
(§6): the Credential Provider, the session context store, and the oracle
saying whether a call's handler misses its per-call deadline. -/
structure BackendEnv where
  getCredential : String → CredLookup
  refresh : String → RefreshResult
  session : String → SessionContext
  timesOut : String → Bool

/-- Modelled from the spec: the batch-level credential resolution (§4.4, §6):
a valid lookup is used as is, an expired one is refreshed once, and a session
with no usable credential after refresh yields none. -/
def resolveCredential (env : BackendEnv) (sessionId : String) : Option Credential :=
  match env.getCredential sessionId with
  | .valid c => some c
  | .expired =>
    match env.refresh sessionId with
    | .refreshed c => some c
    | .refreshFailed => none
  | .notFound => none

/-- Modelled from the spec: the closed set of calendar actions (§2, §9). -/
inductive ActionName where
  | listEvents
  | createEvent
  | updateEvent
  | deleteEvent
deriving DecidableEq, Repr

/-- Modelled from the spec: the Action Registry (§4.2):
resolve(functionName) -> Handler | NotFound, a data-driven lookup over a
static table. -/
def resolveAction (functionName : String) : Option ActionName :=
  if functionName = "listEvents" then some ActionName.listEvents
  else if functionName = "createEvent" then some ActionName.createEvent
  else if functionName = "updateEvent" then some ActionName.updateEvent
  else if functionName = "deleteEvent" then some ActionName.deleteEvent
  else none

/-- Look an argument up in a tool call's key/value mapping. -/
def lookupArg (args : List (String × String)) (key : String) : Option String :=
  (args.find? (fun p => p.1 = key)).map (fun p => p.2)

/-- Modelled from the spec: the date reference a listEvents call names; the
session context supplies what "today" means (§3). -/
inductive DateRef where
  | today
  | onDay (day : Nat)
deriving DecidableEq, Repr

/-- Accumulate decimal digits; any non-digit character fails. -/
def parseNatCore : List Char → Nat → Option Nat
  | [], acc => some acc
  | c :: rest, acc =>
    if c.isDigit then parseNatCore rest (acc * 10 + (c.toNat - 48)) else none

/-- Parse a non-empty all-digit string as a number. -/
def parseNatArg (s : String) : Option Nat :=
  match s.data with
  | [] => none
  | c :: rest => parseNatCore (c :: rest) 0

/-- Parse a date argument: the word "today" or a literal day index. -/
def parseDateRef (s : String) : Option DateRef :=
  if s = "today" then some DateRef.today else (parseNatArg s).map DateRef.onDay

/-- Modelled from the spec: the arguments of each action once validated
(§4.4, §4.5). -/
inductive ValidArgs where
  | listEvents (date : DateRef)
  | createEvent (title : String) (startTime endTime : Nat)
  | updateEvent (eventId : String) (newTitle : String)
  | deleteEvent (eventId : String)
deriving DecidableEq, Repr

/-- Modelled from the spec: per-action argument validation (§4.4, §7):
schema-valid entries with semantically invalid arguments (a missing required
end time, an end time not after the start) fail with a descriptive error. -/
def validateArgs : ActionName → List (String × String) → Except String ValidArgs
  | .listEvents, args =>
    match lookupArg args "date" with
    | none => .error "listEvents needs a date to look at"
    | some d =>
      match parseDateRef d with
      | none => .error "listEvents got a date it cannot understand"
      | some dr => .ok (.listEvents dr)
  | .createEvent, args =>
    match lookupArg args "title" with
    | none => .error "createEvent needs a title for the new event"
    | some t =>
      match lookupArg args "start" with
      | none => .error "createEvent needs a start time"
      | some st =>
        match parseNatArg st with
        | none => .error "createEvent got a start time it cannot understand"
        | some sn =>
          match lookupArg args "end" with
          | none => .error "createEvent needs an end time"
          | some en =>
            match parseNatArg en with
            | none => .error "createEvent got an end time it cannot understand"
            | some enn =>
              if enn ≤ sn then
                .error "createEvent needs the end time after the start time"
              else .ok (.createEvent t sn enn)
  | .updateEvent, args =>
    match lookupArg args "eventId" with
    | none => .error "updateEvent needs the identifier of the event to change"
    | some eid =>
      match lookupArg args "title" with
      | none => .error "updateEvent needs the new title"
      | some t => .ok (.updateEvent eid t)
  | .deleteEvent, args =>
    match lookupArg args "eventId" with
    | none => .error "deleteEvent needs the identifier of the event to delete"
    | some eid => .ok (.deleteEvent eid)

/-- Modelled from the spec: the downstream calendar backend's failure kinds
(§6). -/
inductive DownstreamError where
  | authExpired
  | rateLimited
  | notFound
  | conflict
deriving DecidableEq, Repr

/-- Modelled from the spec: how handlers translate downstream failures into
the error taxonomy (§4.5, §7): rate limiting is the retryable class,
everything else non-retryable. -/
def downstreamCode : DownstreamError → ErrorCode
  | .rateLimited => .DownstreamRetryable
  | _ => .DownstreamNonRetryable

/-- A natural-language message for a downstream failure (§7). -/
def downstreamMessage : DownstreamError → String
  | .authExpired => "I could not reach your calendar because the sign-in expired"
  | .rateLimited => "Your calendar is busy right now, please try again shortly"
  | .notFound => "I could not find that event in your calendar"
  | .conflict => "That change clashed with another change to your calendar"

/-- Whether an event lies on the given day. -/
def onDay (day : Nat) (e : CalEvent) : Bool := e.startTime / 1440 = day

/-- Insert an event into a list kept in chronological (startTime) order. -/
def insertChrono (e : CalEvent) : List CalEvent → List CalEvent
  | [] => [e]
  | f :: rest =>
    if e.startTime ≤ f.startTime then e :: f :: rest else f :: insertChrono e rest

/-- Sort events chronologically by start time. -/
def sortChrono : List CalEvent → List CalEvent
  | [] => []
  | e :: rest => insertChrono e (sortChrono rest)

/-- The natural-language rendering of a list of events (§4.6). -/
def describeEvents (evs : List CalEvent) : String :=
  "You have " ++ toString evs.length ++ " events: "
    ++ String.intercalate ", " (evs.map (fun e => e.title))

/-- Modelled from the spec: the Calendar Action Handlers (§4.5): each performs
one calendar operation against the session's calendar using the supplied
credential, returning a domain result or a typed downstream failure. -/
def runHandler (ctx : SessionContext) (cred : Credential) (v : ValidArgs) :
    Except DownstreamError (String × List CalEvent) :=
  if cred.accessToken = "" then .error .authExpired else
  match v with
  | .listEvents d =>
    let day := match d with | .today => ctx.refDate | .onDay n => n
    let evs := sortChrono (ctx.calendar.filter (onDay day))
    .ok (describeEvents evs, evs)
  | .createEvent t _ _ => .ok ("I created the event " ++ t, [])
  | .updateEvent eid t =>
    if ctx.calendar.any (fun e => e.eventId = eid) then
      .ok ("I renamed that event to " ++ t, [])
    else .error .notFound
  | .deleteEvent eid =>
    if ctx.calendar.any (fun e => e.eventId = eid) then
      .ok ("I deleted that event", [])
    else .error .notFound

/-- An observable action of the engine, recorded for the invariants about
credential resolution and handler execution. -/
inductive Effect where
  | credentialResolve (sessionId : String)
  | backendRequest (callId : String)
deriving DecidableEq, Repr

/-- Whether an effect is a credential resolution. -/
def Effect.isCredResolve : Effect → Bool
  | .credentialResolve _ => true
  | .backendRequest _ => false

/-- Whether an effect is a handler's backend calendar request. -/
def Effect.isBackendRequest : Effect → Bool
  | .credentialResolve _ => false
  | .backendRequest _ => true

/-- A Failed outcome with the given code and message. -/
def failedOutcome (callId : String) (code : ErrorCode) (msg : String) : ToolCallOutcome :=
  { callId := callId, status := .Failed, payload := .failure code msg }

/-- The payload a timed-out call is finalized with (§4.3, §7). -/
def timeoutPayload : OutcomePayload :=
  .failure .Timeout "That took too long, please try again"

/-- Modelled from the spec: the per-call execution the Dispatch Orchestrator
fans out (§4.4), before the outcome is stamped with its identifier: registry
lookup, argument validation before execution, then the handler under the
per-call deadline; the effects record the backend request the handler
issues. -/
def executeCallCore (env : BackendEnv) (ctx : SessionContext) (cred : Credential)
    (c : ToolCallRequest) : (Status × OutcomePayload) × List Effect :=
  match resolveAction c.functionName with
  | none =>
    ((.Failed, .failure .UnknownFunction
      ("I do not know how to " ++ c.functionName)), [])
  | some a =>
    match validateArgs a c.args with
    | .error msg => ((.Failed, .failure .InvalidArguments msg), [])
    | .ok v =>
      if env.timesOut c.callId then
        ((.TimedOut, timeoutPayload), [.backendRequest c.callId])
      else
        match runHandler ctx cred v with
        | .ok r => ((.Succeeded, .success r.1 r.2), [.backendRequest c.callId])
        | .error e =>
          ((.Failed, .failure (downstreamCode e) (downstreamMessage e)),
           [.backendRequest c.callId])

/-- Modelled from the spec: one fanned-out call's outcome: the originating
identifier with the status and payload executeCallCore settled on, plus the
recorded effects (§4.4). -/
def executeCall (env : BackendEnv) (ctx : SessionContext) (cred : Credential)
    (c : ToolCallRequest) : ToolCallOutcome × List Effect :=
  ({ callId := c.callId,
     status := (executeCallCore env ctx cred c).1.1,
     payload := (executeCallCore env ctx cred c).1.2 },
   (executeCallCore env ctx cred c).2)

/-- Modelled from the spec: the Dispatch Orchestrator (§4.4): resolve the
session's credential once for the whole batch; when no usable credential
exists every call fails with CredentialUnavailable and no handler runs;
otherwise every call executes against the shared credential and session
context.  Returns one outcome per call plus the recorded effects. -/
def dispatchBatch (env : BackendEnv) (batch : WebhookBatch) :
    List ToolCallOutcome × List Effect :=
  match resolveCredential env batch.sessionId with
  | none =>
    (batch.calls.map (fun c =>
        failedOutcome c.callId .CredentialUnavailable
          "I could not access your calendar credentials right now"),
     [.credentialResolve batch.sessionId])
  | some cred =>
    let ctx := env.session batch.sessionId
    (batch.calls.map (fun c => (executeCall env ctx cred c).1),
     Effect.credentialResolve batch.sessionId ::
       (batch.calls.map (fun c => (executeCall env ctx cred c).2)).flatten)

/-- Modelled from the spec: the Correlation Tracker's per-identifier state
(§4.3): Pending with a deadline, or finalized in one of the terminal
statuses. -/
inductive TrackerState where
  | pending (deadline : Nat)
  | finalized (status : Status) (payload : OutcomePayload)
deriving DecidableEq, Repr

/-- A handler's (or the timeout's) attempted terminal transition. -/
structure TerminalAttempt where
  status : Status
  payload : OutcomePayload
deriving DecidableEq, Repr

/-- Modelled from the spec: recording a terminal transition (§4.3): a pending
call is finalized and the transition accepted; on an already finalized call
the attempt is rejected as an invariant violation and the recorded outcome
is untouched. -/
def recordTerminal (s : TrackerState) (a : TerminalAttempt) : TrackerState × Bool :=
  match s with
  | .pending _ => (.finalized a.status a.payload, true)
  | .finalized st p => (.finalized st p, false)

/-- Modelled from the spec: the deadline check (§4.3): once the deadline has
elapsed a still-pending call is finalized as TimedOut; otherwise nothing
changes. -/
def fireDeadline (now : Nat) (s : TrackerState) : TrackerState :=
  match s with
  | .pending d => if d ≤ now then .finalized .TimedOut timeoutPayload else .pending d
  | .finalized st p => .finalized st p

/-- Replay a sequence of attempted terminal transitions, counting how many
were accepted. -/
def runAttempts (s : TrackerState) : List TerminalAttempt → TrackerState × Nat
  | [] => (s, 0)
  | a :: rest =>
    let r := recordTerminal s a
    let rr := runAttempts r.1 rest
    (rr.1, (if r.2 then 1 else 0) + rr.2)

/-- Modelled from the spec: one raw tool-call entry as parsed from the
incoming JSON (§4.1); any field may be missing. -/
structure RawEntry where
  rawId : Option String
  rawFunctionName : Option String
  rawArgs : Option (List (String × String))
deriving DecidableEq, Repr

/-- Modelled from the spec: a parseable request body before schema validation
(§4.1); the session identifier arrives via call metadata. -/
structure RawBatch where
  rawSessionId : Option String
  rawEntries : List RawEntry
deriving DecidableEq, Repr

/-- Modelled from the spec: an incoming payload at the outermost layer (§7):
either not parseable as a batch at all, or a parsed raw batch. -/
inductive RawPayload where
  | unparseable
  | parsed (b : RawBatch)
deriving DecidableEq, Repr

/-- Validate one entry: identifier, function name and arguments object must
all be present, the identifier non-empty (it is the correlation token). -/
def validateEntry (e : RawEntry) : Option ToolCallRequest :=
  match e.rawId, e.rawFunctionName, e.rawArgs with
  | some i, some f, some a =>
    if i = "" then none else some { callId := i, functionName := f, args := a }
  | _, _, _ => none

/-- Validate every entry of the raw batch in order. -/
def validateEntries : List RawEntry → Option (List ToolCallRequest)
  | [] => some []
  | e :: rest =>
    match validateEntry e, validateEntries rest with
    | some c, some cs => some (c :: cs)
    | _, _ => none

/-- Modelled from the spec: the Webhook Receiver's schema validation (§4.1):
a session identifier, a non-empty batch, and every entry carrying its
identifier, function name and arguments object. -/
def validateBatch (b : RawBatch) : Except String WebhookBatch :=
  match b.rawSessionId with
  | none => .error "the request names no session"
  | some sid =>
    if b.rawEntries.isEmpty then .error "the batch holds no tool calls"
    else
      match validateEntries b.rawEntries with
      | none => .error "a tool call lacks its identifier, function name or arguments"
      | some calls => .ok { sessionId := sid, calls := calls }

/-- Modelled from the spec: one wire result entry (§4.6): the originating
identifier echoed verbatim with either a result string or an error string. -/
structure ResultEntry where
  toolCallId : String
  result : Option String
  error : Option String
deriving DecidableEq, Repr

/-- Modelled from the spec: the body of the HTTP response (§4.1, §7): the
platform's correlation shape, a renderable error body, or a bare HTTP error
with no usable body — the engine never produces the bare form. -/
inductive ResponseBody where
  | results (entries : List ResultEntry)
  | spokenError (message : String)
  | bare
deriving DecidableEq, Repr

/-- A wire result entry is well formed when it echoes a non-empty identifier
and carries exactly one of the result and error strings (§4.6). -/
def wellFormedEntry (e : ResultEntry) : Bool :=
  (e.toolCallId != "") && (e.result.isSome != e.error.isSome)

/-- A response body the calling platform can use: the correlation shape with
every entry well formed, or a non-empty renderable error; the bare form is
the one shape that is not well formed (§4.1, §7). -/
def wellFormed : ResponseBody → Bool
  | .results es => es.all wellFormedEntry
  | .spokenError m => m != ""
  | .bare => false

/-- An HTTP response: status code and body. -/
structure HttpResponse where
  statusCode : Nat
  body : ResponseBody
deriving DecidableEq, Repr

/-- Modelled from the spec: the Response Formatter (§4.6): each outcome is
rendered with its original identifier and either the success string or the
error string. -/
def formatOutcome (o : ToolCallOutcome) : ResultEntry :=
  match o.payload with
  | .success msg _ => { toolCallId := o.callId, result := some msg, error := none }
  | .failure _ msg => { toolCallId := o.callId, result := none, error := some msg }

/-- Modelled from the spec: the Webhook Receiver's outer layer (§4.1, §7): an
unparseable body is the only condition for a non-200 response, and even that
response carries a renderable error; a parseable but schema-invalid batch
gets a structural MalformedRequest error inside a well-formed 200 response;
a valid batch is dispatched and formatted. -/
def handleWebhook (env : BackendEnv) (p : RawPayload) : HttpResponse :=
  match p with
  | .unparseable =>
    { statusCode := 400, body := .spokenError "I could not understand that request" }
  | .parsed raw =>
    match validateBatch raw with
    | .error msg =>
      { statusCode := 200, body := .spokenError ("MalformedRequest: " ++ msg) }
    | .ok batch =>
      { statusCode := 200,
        body := .results ((dispatchBatch env batch).1.map formatOutcome) }

end VoiceCal


namespace VoiceCal

/-- Chronological order: each event starts no later than the next. -/
def chronOrdered : List CalEvent → Bool
  | [] => true
  | [_] => true
  | a :: b :: rest => (decide (a.startTime ≤ b.startTime)) && chronOrdered (b :: rest)

/-- Minute count at the start of the demo session's "today". -/
def tBase : Nat := 20000 * 1440

/-- Demo event at 9:00 today. -/
def evStandup : CalEvent :=
  { eventId := "e1", title := "Standup", startTime := tBase + 540, endTime := tBase + 570 }

/-- Demo event at 12:00 today. -/
def evLunch : CalEvent :=
  { eventId := "e2", title := "Lunch", startTime := tBase + 720, endTime := tBase + 780 }

/-- Demo event at 16:00 today. -/
def evReview : CalEvent :=
  { eventId := "e3", title := "Review", startTime := tBase + 960, endTime := tBase + 1020 }

/-- Demo event on the following day, to show the date filter at work. -/
def evOther : CalEvent :=
  { eventId := "e4", title := "Other",
    startTime := tBase + 1440 + 600, endTime := tBase + 1440 + 660 }

/-- The demo session's calendar, deliberately not in chronological order. -/
def demoCalendar : List CalEvent := [evLunch, evReview, evStandup, evOther]

/-- A demo environment with a valid credential and no timeouts. -/
def demoEnv : BackendEnv :=
  { getCredential := fun _ => .valid { accessToken := "tok" },
    refresh := fun _ => .refreshFailed,
    session := fun _ => { refDate := 20000, calendar := demoCalendar },
    timesOut := fun _ => false }

/-- A demo environment whose session credential is expired and whose refresh
fails: resolution yields no usable credential. -/
def demoEnvNoCred : BackendEnv :=
  { getCredential := fun _ => .expired,
    refresh := fun _ => .refreshFailed,
    session := fun _ => { refDate := 20000, calendar := demoCalendar },
    timesOut := fun _ => false }

/-- A batch with a single listEvents call for "today". -/
def demoBatch : WebhookBatch :=
  { sessionId := "s1",
    calls := [{ callId := "call1", functionName := "listEvents",
                args := [("date", "today")] }] }

/-- A call naming a function absent from the registry. -/
def demoUnknownCall : ToolCallRequest :=
  { callId := "c-unk", functionName := "emailEvent", args := [] }

/-- A healthy listEvents call. -/
def demoListCall : ToolCallRequest :=
  { callId := "c-list", functionName := "listEvents", args := [("date", "today")] }

/-- A batch mixing an unknown-function call with a healthy sibling. -/
def demoMixedBatch : WebhookBatch :=
  { sessionId := "s1", calls := [demoUnknownCall, demoListCall] }

/-- A createEvent call missing its required end time. -/
def demoBadCreate : ToolCallRequest :=
  { callId := "c-bad", functionName := "createEvent",
    args := [("title", "Lunch"), ("start", "600")] }

theorem dispatch_ids_eq (env : BackendEnv) (batch : WebhookBatch) :
    (dispatchBatch env batch).1.map ToolCallOutcome.callId
      = batch.calls.map ToolCallRequest.callId := by
  unfold dispatchBatch
  cases hc : resolveCredential env batch.sessionId
  · simp only [List.map_map]
    rfl
  · simp only [List.map_map]
    rfl

theorem dispatch_outcomes_of_cred (env : BackendEnv) (batch : WebhookBatch)
    (cred : Credential) (hc : resolveCredential env batch.sessionId = some cred) :
    (dispatchBatch env batch).1
      = batch.calls.map
          (fun c => (executeCall env (env.session batch.sessionId) cred c).1) := by
  unfold dispatchBatch
  rw [hc]

theorem dispatch_outcomes_of_nocred (env : BackendEnv) (batch : WebhookBatch)
    (hc : resolveCredential env batch.sessionId = none) :
    (dispatchBatch env batch).1
      = batch.calls.map (fun c =>
          failedOutcome c.callId .CredentialUnavailable
            "I could not access your calendar credentials right now") := by
  unfold dispatchBatch
  rw [hc]

theorem dispatch_effects_of_cred (env : BackendEnv) (batch : WebhookBatch)
    (cred : Credential) (hc : resolveCredential env batch.sessionId = some cred) :
    (dispatchBatch env batch).2
      = Effect.credentialResolve batch.sessionId ::
          (batch.calls.map
            (fun c => (executeCall env (env.session batch.sessionId) cred c).2)).flatten := by
  unfold dispatchBatch
  rw [hc]

theorem dispatch_effects_of_nocred (env : BackendEnv) (batch : WebhookBatch)
    (hc : resolveCredential env batch.sessionId = none) :
    (dispatchBatch env batch).2 = [Effect.credentialResolve batch.sessionId] := by
  unfold dispatchBatch
  rw [hc]

/-- C1: the dispatcher returns exactly one outcome per request: the response's
identifier list equals the batch's identifier list, so a batch of N calls
gets N outcome entries and every identifier occurs exactly as often in the
response as in the batch — no duplicates, no omissions, whatever each call's
fate (success, failure or timeout). -/
theorem dispatch_preserves_identifiers (env : BackendEnv) (batch : WebhookBatch) :
    (dispatchBatch env batch).1.length = batch.calls.length ∧
      (dispatchBatch env batch).1.map ToolCallOutcome.callId
        = batch.calls.map ToolCallRequest.callId ∧
      ∀ ident : String,
        ((dispatchBatch env batch).1.map ToolCallOutcome.callId).count ident
          = (batch.calls.map ToolCallRequest.callId).count ident := by
  refine ⟨?_, dispatch_ids_eq env batch, fun ident => by rw [dispatch_ids_eq]⟩
  have h := congrArg List.length (dispatch_ids_eq env batch)
  simpa using h

theorem runAttempts_finalized (st : Status) (p : OutcomePayload) :
    ∀ as : List TerminalAttempt,
      runAttempts (.finalized st p) as = (.finalized st p, 0)
  | [] => rfl
  | a :: rest => by
    simp [runAttempts, recordTerminal, runAttempts_finalized st p rest]

theorem runAttempts_le_one (s : TrackerState) (as : List TerminalAttempt) :
    (runAttempts s as).2 ≤ 1 := by
  cases s with
  | finalized st p => simp [runAttempts_finalized]
  | pending d =>
    cases as with
    | nil => simp [runAttempts]
    | cons a rest => simp [runAttempts, recordTerminal, runAttempts_finalized]

/-- C2: at most one terminal transition per identifier: once the per-call
deadline has elapsed the call is finalized as TimedOut; a handler result
arriving afterwards is rejected and leaves the TimedOut outcome in place;
every attempt on an already finalized identifier is rejected unchanged; and
any replay of attempted transitions from any state accepts at most one. -/
theorem terminal_transition_at_most_once (d now : Nat) (late : TerminalAttempt)
    (hd : d ≤ now) :
    fireDeadline now (.pending d) = .finalized .TimedOut timeoutPayload ∧
      recordTerminal (fireDeadline now (.pending d)) late
        = (.finalized .TimedOut timeoutPayload, false) ∧
      (∀ (st : Status) (p : OutcomePayload) (a : TerminalAttempt),
        recordTerminal (.finalized st p) a = (.finalized st p, false)) ∧
      ∀ (s : TrackerState) (as : List TerminalAttempt), (runAttempts s as).2 ≤ 1 := by
  have hfire : fireDeadline now (.pending d) = .finalized .TimedOut timeoutPayload := by
    simp [fireDeadline, hd]
  exact ⟨hfire, by rw [hfire]; rfl, fun st p a => rfl, runAttempts_le_one⟩

theorem terminal_transition_at_most_once_witness :
    fireDeadline 10 (.pending 10) = .finalized .TimedOut timeoutPayload ∧
      recordTerminal (fireDeadline 10 (.pending 10))
          ⟨Status.Succeeded, OutcomePayload.success "done" []⟩
        = (.finalized .TimedOut timeoutPayload, false) ∧
      (∀ (st : Status) (p : OutcomePayload) (a : TerminalAttempt),
        recordTerminal (.finalized st p) a = (.finalized st p, false)) ∧
      ∀ (s : TrackerState) (as : List TerminalAttempt), (runAttempts s as).2 ≤ 1 :=
  terminal_transition_at_most_once 10 10
    ⟨Status.Succeeded, OutcomePayload.success "done" []⟩ (by decide)

/-- C3: a tool call whose function name is not in the registry gets a Failed
outcome with UnknownFunction, and the batch is still mapped call by call: the
unknown call's outcome sits in the aggregated response and every sibling call
still resolves to its own outcome. -/
theorem unknown_function_isolated_failure (env : BackendEnv) (batch : WebhookBatch)
    (cred : Credential) (c : ToolCallRequest)
    (hc : resolveCredential env batch.sessionId = some cred)
    (hmem : c ∈ batch.calls)
    (hunknown : resolveAction c.functionName = none) :
    (executeCall env (env.session batch.sessionId) cred c).1
        = failedOutcome c.callId .UnknownFunction
            ("I do not know how to " ++ c.functionName) ∧
      (executeCall env (env.session batch.sessionId) cred c).1
          ∈ (dispatchBatch env batch).1 ∧
      (dispatchBatch env batch).1
        = batch.calls.map
            (fun c' => (executeCall env (env.session batch.sessionId) cred c').1) := by
  refine ⟨?_, ?_, dispatch_outcomes_of_cred env batch cred hc⟩
  · simp [executeCall, executeCallCore, hunknown, failedOutcome]
  · rw [dispatch_outcomes_of_cred env batch cred hc]
    exact List.mem_map_of_mem _ hmem

theorem unknown_function_isolated_failure_witness :
    (executeCall demoEnv (demoEnv.session "s1") ⟨"tok"⟩ demoUnknownCall).1
        = failedOutcome "c-unk" .UnknownFunction
            ("I do not know how to " ++ "emailEvent") ∧
      (executeCall demoEnv (demoEnv.session "s1") ⟨"tok"⟩ demoUnknownCall).1
          ∈ (dispatchBatch demoEnv demoMixedBatch).1 ∧
      (dispatchBatch demoEnv demoMixedBatch).1
        = demoMixedBatch.calls.map
            (fun c' => (executeCall demoEnv (demoEnv.session "s1") ⟨"tok"⟩ c').1) :=
  unknown_function_isolated_failure demoEnv demoMixedBatch ⟨"tok"⟩ demoUnknownCall
    rfl (List.mem_cons_self _ _) (by decide)

/-- C4: a call whose arguments fail validation yields Failed with
InvalidArguments carrying the validator's descriptive message, and the
handler body is never invoked: no backend request effect is recorded for that
call. -/
theorem invalid_arguments_skip_handler (env : BackendEnv) (ctx : SessionContext)
    (cred : Credential) (c : ToolCallRequest) (a : ActionName) (msg : String)
    (hres : resolveAction c.functionName = some a)
    (hval : validateArgs a c.args = .error msg) :
    executeCall env ctx cred c = (failedOutcome c.callId .InvalidArguments msg, []) := by
  have hcore : executeCallCore env ctx cred c
      = ((.Failed, .failure .InvalidArguments msg), []) := by
    simp only [executeCallCore, hres, hval]
  simp [executeCall, hcore, failedOutcome]

theorem invalid_arguments_skip_handler_witness :
    executeCall demoEnv (demoEnv.session "s1") ⟨"tok"⟩ demoBadCreate
      = (failedOutcome "c-bad" .InvalidArguments "createEvent needs an end time", []) :=
  invalid_arguments_skip_handler demoEnv (demoEnv.session "s1") ⟨"tok"⟩ demoBadCreate
    .createEvent "createEvent needs an end time" (by decide) rfl

theorem executeCall_effects (env : BackendEnv) (ctx : SessionContext)
    (cred : Credential) (c : ToolCallRequest) :
    (executeCall env ctx cred c).2 = []
      ∨ (executeCall env ctx cred c).2 = [Effect.backendRequest c.callId] := by
  show (executeCallCore env ctx cred c).2 = []
    ∨ (executeCallCore env ctx cred c).2 = [Effect.backendRequest c.callId]
  rcases hra : resolveAction c.functionName with _ | a
  · left
    simp [executeCallCore, hra]
  · rcases hva : validateArgs a c.args with msg | v
    · left
      simp [executeCallCore, hra, hva]
    · rcases hto : env.timesOut c.callId
      · rcases hrh : runHandler ctx cred v with e | r
        · right
          simp [executeCallCore, hra, hva, hto, hrh]
        · right
          simp [executeCallCore, hra, hva, hto, hrh]
      · right
        simp [executeCallCore, hra, hva, hto]

theorem executeCall_no_credResolve (env : BackendEnv) (ctx : SessionContext)
    (cred : Credential) (c : ToolCallRequest) :
    ((executeCall env ctx cred c).2).filter Effect.isCredResolve = [] := by
  rcases executeCall_effects env ctx cred c with h | h <;> rw [h] <;> rfl

theorem flatten_no_credResolve (env : BackendEnv) (ctx : SessionContext)
    (cred : Credential) :
    ∀ cs : List ToolCallRequest,
      ((cs.map (fun c => (executeCall env ctx cred c).2)).flatten).filter
          Effect.isCredResolve = []
  | [] => rfl
  | c :: rest => by
    simp only [List.map_cons, List.flatten_cons, List.filter_append]
    rw [executeCall_no_credResolve, flatten_no_credResolve env ctx cred rest]
    rfl

theorem dispatch_credResolve_once (env : BackendEnv) (batch : WebhookBatch) :
    ((dispatchBatch env batch).2.filter Effect.isCredResolve).length = 1 := by
  rcases hc : resolveCredential env batch.sessionId with _ | cred
  · rw [dispatch_effects_of_nocred env batch hc]
    rfl
  · rw [dispatch_effects_of_cred env batch cred hc, List.filter_cons]
    simp only [Effect.isCredResolve, if_true]
    rw [flatten_no_credResolve env (env.session batch.sessionId) cred batch.calls]
    rfl

/-- C6: the session credential is resolved exactly once per batch, whatever
the batch (never once per call), and the one resolved credential is shared by
every call of the batch; when resolution, refresh included, fails, every call
in the batch resolves to Failed with CredentialUnavailable and no handler
issues a backend calendar request. -/
theorem credential_resolved_once_per_batch (env : BackendEnv) (batch : WebhookBatch)
    (hfail : resolveCredential env batch.sessionId = none) :
    (∀ (env' : BackendEnv) (batch' : WebhookBatch),
        ((dispatchBatch env' batch').2.filter Effect.isCredResolve).length = 1) ∧
      (∀ (env' : BackendEnv) (batch' : WebhookBatch) (cred' : Credential),
        resolveCredential env' batch'.sessionId = some cred' →
          (dispatchBatch env' batch').1
            = batch'.calls.map (fun c =>
                (executeCall env' (env'.session batch'.sessionId) cred' c).1)) ∧
      (dispatchBatch env batch).1
        = batch.calls.map (fun c =>
            failedOutcome c.callId .CredentialUnavailable
              "I could not access your calendar credentials right now") ∧
      (∀ o ∈ (dispatchBatch env batch).1,
        o.status = .Failed ∧ o.errorCode = some .CredentialUnavailable) ∧
      (dispatchBatch env batch).2.filter Effect.isBackendRequest = [] := by
  refine ⟨dispatch_credResolve_once, dispatch_outcomes_of_cred,
    dispatch_outcomes_of_nocred env batch hfail, ?_, ?_⟩
  · intro o ho
    rw [dispatch_outcomes_of_nocred env batch hfail] at ho
    obtain ⟨c, hc, rfl⟩ := List.mem_map.mp ho
    exact ⟨rfl, rfl⟩
  · rw [dispatch_effects_of_nocred env batch hfail]
    rfl

theorem credential_resolved_once_per_batch_witness :
    (∀ (env' : BackendEnv) (batch' : WebhookBatch),
        ((dispatchBatch env' batch').2.filter Effect.isCredResolve).length = 1) ∧
      (∀ (env' : BackendEnv) (batch' : WebhookBatch) (cred' : Credential),
        resolveCredential env' batch'.sessionId = some cred' →
          (dispatchBatch env' batch').1
            = batch'.calls.map (fun c =>
                (executeCall env' (env'.session batch'.sessionId) cred' c).1)) ∧
      (dispatchBatch demoEnvNoCred demoMixedBatch).1
        = demoMixedBatch.calls.map (fun c =>
            failedOutcome c.callId .CredentialUnavailable
              "I could not access your calendar credentials right now") ∧
      (∀ o ∈ (dispatchBatch demoEnvNoCred demoMixedBatch).1,
        o.status = .Failed ∧ o.errorCode = some .CredentialUnavailable) ∧
      (dispatchBatch demoEnvNoCred demoMixedBatch).2.filter
          Effect.isBackendRequest = [] :=
  credential_resolved_once_per_batch demoEnvNoCred demoMixedBatch rfl

theorem wellFormedEntry_format (o : ToolCallOutcome) :
    wellFormedEntry (formatOutcome o) = (o.callId != "") := by
  rcases o with ⟨i, st, p⟩
  rcases p with ⟨m, evs⟩ | ⟨code, m⟩ <;> simp [formatOutcome, wellFormedEntry]

theorem validateEntry_id_ne (e : RawEntry) (c : ToolCallRequest)
    (h : validateEntry e = some c) : c.callId ≠ "" := by
  rcases e with ⟨i, f, a⟩
  rcases i with _ | i
  · exact absurd h (by simp [validateEntry])
  · rcases f with _ | f
    · exact absurd h (by simp [validateEntry])
    · rcases a with _ | a
      · exact absurd h (by simp [validateEntry])
      · by_cases hi : i = ""
        · simp [validateEntry, hi] at h
        · simp only [validateEntry, if_neg hi, Option.some.injEq] at h
          rw [← h]
          exact hi

theorem validateEntries_ids_ne :
    ∀ (es : List RawEntry) (cs : List ToolCallRequest),
      validateEntries es = some cs → ∀ c ∈ cs, c.callId ≠ ""
  | [], cs, h => by
    simp only [validateEntries, Option.some.injEq] at h
    subst h
    simp
  | e :: rest, cs, h => by
    simp only [validateEntries] at h
    cases he : validateEntry e with
    | none =>
      rw [he] at h
      exact absurd h (by simp)
    | some c0 =>
      rw [he] at h
      cases hr : validateEntries rest with
      | none =>
        rw [hr] at h
        exact absurd h (by simp)
      | some cs0 =>
        rw [hr] at h
        simp only [Option.some.injEq] at h
        subst h
        intro c hc
        rcases List.mem_cons.mp hc with hc | hc
        · rw [hc]
          exact validateEntry_id_ne e c0 he
        · exact validateEntries_ids_ne rest cs0 hr c hc

theorem validateBatch_ids_ne (b : RawBatch) (batch : WebhookBatch)
    (h : validateBatch b = .ok batch) : ∀ c ∈ batch.calls, c.callId ≠ "" := by
  rcases b with ⟨sid?, entries⟩
  rcases sid? with _ | sid
  · exact absurd h (by simp [validateBatch])
  · by_cases he : entries.isEmpty
    · exact absurd h (by simp [validateBatch, he])
    · rcases hve : validateEntries entries with _ | cs
      · exact absurd h (by simp [validateBatch, he, hve])
      · simp only [validateBatch, he, hve, if_neg, Bool.false_eq_true,
          not_false_eq_true, Except.ok.injEq] at h
        subst h
        exact validateEntries_ids_ne entries cs hve

theorem dispatch_outcome_ids (env : BackendEnv) (batch : WebhookBatch) :
    ∀ o ∈ (dispatchBatch env batch).1, ∃ c ∈ batch.calls, o.callId = c.callId := by
  intro o ho
  have hmo : o.callId ∈ (dispatchBatch env batch).1.map ToolCallOutcome.callId :=
    List.mem_map_of_mem _ ho
  rw [dispatch_ids_eq] at hmo
  obtain ⟨c, hc, hcid⟩ := List.mem_map.mp hmo
  exact ⟨c, hc, hcid.symm⟩

theorem wellFormed_results (os : List ToolCallOutcome)
    (h : ∀ o ∈ os, o.callId ≠ "") :
    wellFormed (.results (os.map formatOutcome)) = true := by
  simp only [wellFormed, List.all_eq_true]
  intro e he
  obtain ⟨o, ho, rfl⟩ := List.mem_map.mp he
  rw [wellFormedEntry_format]
  simpa using h o ho

theorem malformed_msg_ne (msg : String) :
    (("MalformedRequest: " ++ msg) != "") = true := by
  simp only [bne_iff_ne, ne_eq]
  intro h
  have h2 : ("MalformedRequest: " ++ msg).data = "".data := congrArg String.data h
  simp [String.data_append] at h2

theorem handleWebhook_parsed_error (env : BackendEnv) (raw : RawBatch)
    (msg : String) (hv : validateBatch raw = .error msg) :
    handleWebhook env (.parsed raw)
      = { statusCode := 200, body := .spokenError ("MalformedRequest: " ++ msg) } := by
  simp only [handleWebhook, hv]

theorem handleWebhook_parsed_ok (env : BackendEnv) (raw : RawBatch)
    (batch : WebhookBatch) (hv : validateBatch raw = .ok batch) :
    handleWebhook env (.parsed raw)
      = { statusCode := 200,
          body := .results ((dispatchBatch env batch).1.map formatOutcome) } := by
  simp only [handleWebhook, hv]

/-- C5: every response the receiver produces is well formed for the calling
platform, never the bare form: a parseable but schema-invalid payload gets a
structural MalformedRequest error inside a 200 response; the only condition
for a non-200 status is a body unparseable as a batch at all, and that 400
response still carries a renderable error body. -/
theorem receiver_always_well_formed (env : BackendEnv) (p : RawPayload) :
    wellFormed (handleWebhook env p).body = true ∧
      (handleWebhook env p).body ≠ ResponseBody.bare ∧
      ((handleWebhook env p).statusCode ≠ 200 → p = RawPayload.unparseable) ∧
      (p = RawPayload.unparseable → (handleWebhook env p).statusCode = 400) ∧
      ∀ (raw : RawBatch) (msg : String), p = RawPayload.parsed raw →
        validateBatch raw = Except.error msg →
          (handleWebhook env p).statusCode = 200 ∧
            (handleWebhook env p).body
              = ResponseBody.spokenError ("MalformedRequest: " ++ msg) := by
  rcases p with _ | raw
  · refine ⟨rfl, ?_, fun _ => rfl, fun _ => rfl, ?_⟩
    · simp [handleWebhook]
    · intro raw msg hp
      exact absurd hp (by simp)
  · rcases hv : validateBatch raw with msg | batch
    · have heq := handleWebhook_parsed_error env raw msg hv
      refine ⟨?_, ?_, ?_, ?_, ?_⟩
      · rw [heq]
        exact malformed_msg_ne msg
      · rw [heq]
        simp
      · rw [heq]
        intro habs
        exact absurd rfl habs
      · intro hp
        exact absurd hp (by simp)
      · intro raw' msg' hp hv'
        have hr : raw' = raw := by
          injection hp with h
          exact h.symm
        subst hr
        rw [hv] at hv'
        have hm : msg = msg' := by
          injection hv'
        subst hm
        rw [heq]
        exact ⟨rfl, rfl⟩
    · have heq := handleWebhook_parsed_ok env raw batch hv
      refine ⟨?_, ?_, ?_, ?_, ?_⟩
      · rw [heq]
        apply wellFormed_results
        intro o ho
        obtain ⟨c, hc, hoc⟩ := dispatch_outcome_ids env batch o ho
        rw [hoc]
        exact validateBatch_ids_ne raw batch hv c hc
      · rw [heq]
        simp
      · rw [heq]
        intro habs
        exact absurd rfl habs
      · intro hp
        exact absurd hp (by simp)
      · intro raw' msg' hp hv'
        have hr : raw' = raw := by
          injection hp with h
          exact h.symm
        subst hr
        rw [hv] at hv'
        exact Except.noConfusion hv'

/-- C7: scenario: a batch with one listEvents call for "today" against a
session whose calendar holds exactly 3 events on that date (plus one on the
following day): the call's outcome is Succeeded and its payload enumerates
exactly those 3 events, in chronological order. -/
theorem listEvents_today_three_events :
    (demoCalendar.filter (onDay 20000)).length = 3 ∧
      (dispatchBatch demoEnv demoBatch).1
        = [{ callId := "call1", status := .Succeeded,
             payload := .success (describeEvents [evStandup, evLunch, evReview])
               [evStandup, evLunch, evReview] }] ∧
      [evStandup, evLunch, evReview].Perm (demoCalendar.filter (onDay 20000)) ∧
      chronOrdered [evStandup, evLunch, evReview] = true := by
  refine ⟨by decide, by decide, ?_, by decide⟩
  decide

end VoiceCal
